import Mathlib

/-!
Verification development for the breakwater astronomy generation library.

The Rust source is embedded shallowly:
* `f64` values are embedded as `ℚ` for the generation / control-flow layer
  (all operations the claims inspect there are field operations and
  comparisons), and as `ℝ` for the closed-form zone formulas, where the
  square root is semantically essential (`RSubsystem` below).
* The random stream (`rand::Rng`) is a finite list of unit draws in `[0, 1)`;
  `gen_range(lo..hi)` maps the next unit draw affinely onto `[lo, hi)` and,
  exactly like `rand`, fails on an empty range.  A Rust panic (process
  abort) is represented by the distinguished error value `Err.panicEmptyRange`,
  which no `Result`-returning code path of the source ever produces or
  catches.
* The external formula oracle (mass → temperature / luminosity / radius /
  rgb, out of scope per the spec), and the transcendental `f64` operations
  `sqrt` and `powf`, are parameters bundled in an `Oracle` record.
* Missing modules (constants files, `StarEntity::from_mass`, entity records whose
  files are not part of the staged sources) are modelled from the spec; each
  such definition carries a comment saying so.
-/


/-! Batteries marks the `Rat` field operations `@[irreducible]`; the concrete
evaluation theorems below need them to reduce definitionally. -/
attribute [local semireducible] Rat.add Rat.sub Rat.mul Rat.inv Rat.ofScientific

/-- Errors of the embedded generators.  The Rust source spreads these over
per-module error enums; one inductive suffices for the embedding.
`panicEmptyRange` stands for the Rust panic raised by `rand`'s
`gen_range` on an empty range — it is not an ordinary `Result` error.
`constraintUnsatisfiable` is the error the spec's taxonomy prescribes for a
resolved minimum exceeding a resolved maximum; it is declared so theorems
can speak about it, whether or not the code produces it.
`fuelExhausted` is an embedding artifact modelling non-termination of the
unbounded subsystem recursion. -/
inductive Err : Type
  | outOfRange
  | constraintUnsatisfiable
  | panicEmptyRange
  | stellarMassTooLowForMainSequence
  | stellarMassTooHighForMainSequence
  | unreachablePanic
  | starNotHabitable
  | noHabitableZoneFoundInSubsystem
  | fuelExhausted
  deriving DecidableEq, Repr

/-- The random stream: the unit draws still to be consumed. -/
structure Rng : Type where
  draws : List ℚ
  deriving DecidableEq, Repr

/-- Next unit draw.  The stream contract (spec §6) requires draws in `[0, 1)`;
draws outside that range, and an exhausted stream, are clamped to `0` so the
contract holds unconditionally. -/
def nextUnit : Rng → ℚ × Rng
  | ⟨[]⟩ => (0, ⟨[]⟩)
  | ⟨u :: rest⟩ => (if 0 ≤ u ∧ u < 1 then u else 0, ⟨rest⟩)

/-- `rand`'s `gen_range(lo..hi)`: uniform over the half-open range `[lo, hi)`,
panicking when the range is empty (`lo ≥ hi`). -/
def genRange (lo hi : ℚ) (rng : Rng) : Except Err (ℚ × Rng) :=
  if lo < hi then
    .ok (lo + (nextUnit rng).1 * (hi - lo), (nextUnit rng).2)
  else
    .error .panicEmptyRange

/-- `Result::is_ok`. -/
def exceptIsOk {ε α : Type} : Except ε α → Bool
  | .ok _ => true
  | .error _ => false

/-- The external formula oracle and the transcendental `f64` operations
(spec §1, §6: out of scope, specified only at their interface).  Each
formula may fail when the mass is outside its valid domain. -/
structure Oracle : Type where
  temperature : ℚ → Option ℚ
  luminosity : ℚ → Option ℚ
  radius : ℚ → Option ℚ
  absolute_rgb : ℚ → Option (Nat × Nat × Nat)
  sqrt : ℚ → ℚ
  powf : ℚ → ℚ → ℚ
  log_normal : ℚ → ℚ → Rng → ℚ × Rng

/-! Named physical constants.  The constants modules are not part of the
staged sources; the values below are modelled from the spec ("named physical
default constants").  No theorem depends on the particular values except
through explicit evaluation, and every value is positive as the spec's data
model requires. -/

/-- Modelled from the spec: lower bound of main-sequence stellar mass. -/
def MAIN_SEQUENCE_STAR_MASS_LOWER_BOUND : ℚ := 3 / 40

/-- Modelled from the spec: upper bound of main-sequence stellar mass. -/
def MAIN_SEQUENCE_STAR_MASS_UPPER_BOUND : ℚ := 120

/-- Modelled from the spec: minimum stellar age for habitability, in Gyr. -/
def MINIMUM_STAR_AGE_TO_SUPPORT_LIFE : ℚ := 4

/-- Modelled from the spec: minimum stellar mass for habitability. -/
def MINIMUM_STAR_MASS_TO_SUPPORT_LIFE : ℚ := 3 / 5

/-- Modelled from the spec: maximum stellar mass for habitability. -/
def MAXIMUM_STAR_MASS_TO_SUPPORT_LIFE : ℚ := 7 / 5

/-- Modelled from the spec: minimum habitable age used by the star
constraints generator (star constants module, not staged). -/
def MINIMUM_HABITABLE_AGE : ℚ := 4

/-- Modelled from the spec: probability that a subsystem is a binary. -/
def PROBABILITY_OF_BINARY_STARS : ℚ := 1 / 4

/-- The Morgan-Keenan spectral class (src/src/astronomy/star/spectral_class/type/mod.rs). -/
inductive SpectralClassType : Type
  | O | B | A | F | G | K | M | L | T | Y | D
  deriving DecidableEq, Repr

/-- `SpectralClassType::get_main_sequence_from_mass`
(src/src/astronomy/star/spectral_class/type/mod.rs): bounds check, then a
threshold match on the oracle temperature.  The source's `unreachable!()`
arm is the panic value. -/
def SpectralClassType.get_main_sequence_from_mass (o : Oracle) (mass : ℚ) :
    Except Err SpectralClassType :=
  if mass ≤ MAIN_SEQUENCE_STAR_MASS_LOWER_BOUND then
    .error .stellarMassTooLowForMainSequence
  else if mass ≥ MAIN_SEQUENCE_STAR_MASS_UPPER_BOUND then
    .error .stellarMassTooHighForMainSequence
  else
    match o.temperature mass with
    | none => .error .outOfRange
    | some temperature =>
      if temperature < 3700 then .ok .M
      else if temperature < 5200 then .ok .K
      else if temperature < 6000 then .ok .G
      else if temperature < 7500 then .ok .F
      else if temperature < 10000 then .ok .A
      else if temperature < 33000 then .ok .B
      else if temperature < 95000 then .ok .O
      else .error .unreachablePanic

/-- The `Star` record (named `StarEntity` here: `Star` is taken by Mathlib) (src/src/astronomy/star/mod.rs), field for field;
`class` is a Lean keyword, hence `class_`. -/
structure StarEntity : Type where
  class_ : SpectralClassType
  mass : ℚ
  temperature : ℚ
  radius : ℚ
  luminosity : ℚ
  life_expectancy : ℚ
  current_age : ℚ
  density : ℚ
  habitable_zone : ℚ × ℚ
  approximate_satellite_inner_bound : ℚ
  approximate_satellite_outer_bound : ℚ
  frost_line : ℚ
  absolute_rgb : Nat × Nat × Nat
  deriving DecidableEq, Repr

/-- `StarEntity::get_main_sequence_from_mass` (src/src/astronomy/star/mod.rs):
oracle lookups, closed-form derived fields, and a current-age draw from
`(0.2 .. 0.8) * life_expectancy`. -/
def StarEntity.get_main_sequence_from_mass (o : Oracle) (rng : Rng) (mass : ℚ) :
    Except Err (StarEntity × Rng) :=
  match o.temperature mass with
  | none => .error .outOfRange
  | some temperature =>
  match o.luminosity mass with
  | none => .error .outOfRange
  | some luminosity =>
  match o.radius mass with
  | none => .error .outOfRange
  | some radius =>
  match SpectralClassType.get_main_sequence_from_mass o mass with
  | .error e => .error e
  | .ok class_ =>
  let life_expectancy := mass / luminosity * 10
  match genRange (0.2 * life_expectancy) (0.8 * life_expectancy) rng with
  | .error e => .error e
  | .ok (current_age, rng') =>
  match o.absolute_rgb mass with
  | none => .error .outOfRange
  | some absolute_rgb =>
    .ok
      ({ class_ := class_
         mass := mass
         temperature := temperature
         radius := radius
         luminosity := luminosity
         life_expectancy := life_expectancy
         current_age := current_age
         density := mass / o.powf radius 3
         habitable_zone := (o.sqrt (luminosity / 1.1), o.sqrt (luminosity / 0.53))
         approximate_satellite_inner_bound := 0.1 * mass
         approximate_satellite_outer_bound := 40 * mass
         frost_line := 4.85 * o.sqrt luminosity
         absolute_rgb := absolute_rgb }, rng')

/-- `StarEntity::from_mass`.  Modelled from the spec: the module defining it is not
part of the staged sources; it is the same construction as the staged
`StarEntity::get_main_sequence_from_mass` (spec §4.2: oracle fields plus
closed-form derivations from a sampled mass). -/
def StarEntity.from_mass (o : Oracle) (rng : Rng) (mass : ℚ) : Except Err (StarEntity × Rng) :=
  StarEntity.get_main_sequence_from_mass o rng mass

/-- `StarEntity::is_habitable` (src/src/astronomy/star/mod.rs lines 165–171): the
check is on the current age alone. -/
def StarEntity.is_habitable (s : StarEntity) : Bool :=
  decide (s.current_age ≥ MINIMUM_STAR_AGE_TO_SUPPORT_LIFE)

/-- `StarEntity::check_habitable`.  Modelled: the staged star module only defines
`is_habitable`; this is its `Result` form, as called by
`StarSubsystemType::check_habitable`. -/
def StarEntity.check_habitable (s : StarEntity) : Except Err Unit :=
  if s.current_age ≥ MINIMUM_STAR_AGE_TO_SUPPORT_LIFE then .ok ()
  else .error .starNotHabitable

/-- The legacy star `Constraints` (src/src/astronomy/star/mod.rs's
constraint parameter: optional stellar mass bounds). -/
structure LegacyStarConstraints : Type where
  minimum_stellar_mass : Option ℚ
  maximum_stellar_mass : Option ℚ
  deriving DecidableEq, Repr

/-- Default legacy star constraints: both bounds unset. -/
def LegacyStarConstraints.default : LegacyStarConstraints :=
  { minimum_stellar_mass := none, maximum_stellar_mass := none }

/-- `StarEntity::get_random_main_sequence_constrained` (src/src/astronomy/star/mod.rs):
resolve the mass bounds against the main-sequence defaults, draw a mass,
delegate to `get_main_sequence_from_mass`. -/
def StarEntity.get_random_main_sequence_constrained (o : Oracle)
    (c : LegacyStarConstraints) (rng : Rng) : Except Err (StarEntity × Rng) :=
  let lower_bound_mass := c.minimum_stellar_mass.getD MAIN_SEQUENCE_STAR_MASS_LOWER_BOUND
  let upper_bound_mass := c.maximum_stellar_mass.getD MAIN_SEQUENCE_STAR_MASS_UPPER_BOUND
  match genRange lower_bound_mass upper_bound_mass rng with
  | .error e => .error e
  | .ok (mass, rng') => StarEntity.get_main_sequence_from_mass o rng' mass

/-- The star `Constraints` (src/src/astronomy/star/constraints/mod.rs):
optional mass bounds and the habitability flag. -/
structure StarConstraints : Type where
  minimum_mass : Option ℚ
  maximum_mass : Option ℚ
  make_habitable : Bool
  deriving DecidableEq, Repr

/-- `Constraints::default` for stars: no constraints. -/
def StarConstraints.default : StarConstraints :=
  { minimum_mass := none, maximum_mass := none, make_habitable := false }

/-- Modelled from the spec: habitable stellar mass bounds (star constants
module, not staged). -/
def MINIMUM_HABITABLE_MASS : ℚ := 3 / 5

/-- Modelled from the spec: habitable stellar mass bounds (star constants
module, not staged). -/
def MAXIMUM_HABITABLE_MASS : ℚ := 7 / 5

/-- `Constraints::habitable` for stars (src/src/astronomy/star/constraints/mod.rs). -/
def StarConstraints.habitable : StarConstraints :=
  { minimum_mass := some MINIMUM_HABITABLE_MASS
    maximum_mass := some MAXIMUM_HABITABLE_MASS
    make_habitable := true }

/-- The weighted categorical index of `SpectralClassType::get_random`
(src/src/astronomy/star/spectral_class/type/mod.rs): choices
`[B, A, F, G, K, M, L, T, Y, D]` with weights
`[1, 6, 30, 76, 121, 725, 10, 10, 10, 10]` (total 999), keyed here by a
unit draw scaled to the total weight. -/
def weightedSpectralClassSample (u : ℚ) : SpectralClassType :=
  let x := u * 999
  if x < 1 then .B
  else if x < 7 then .A
  else if x < 37 then .F
  else if x < 113 then .G
  else if x < 234 then .K
  else if x < 959 then .M
  else if x < 969 then .L
  else if x < 979 then .T
  else if x < 989 then .Y
  else .D

/-- `get_random_spectral_class`.  Modelled from the spec ("draw a spectral
class via a weighted categorical distribution over named classes"); the
weights are those of the staged `SpectralClassType::get_random`. -/
def get_random_spectral_class (rng : Rng) : SpectralClassType × Rng :=
  let (u, rng') := nextUnit rng
  (weightedSpectralClassSample u, rng')

/-- `get_random_habitable_spectral_class`.  Modelled from the spec: the
categorical draw "optionally restricted to a habitable subset when the
habitability flag is set" — here the subset F, G, K. -/
def get_random_habitable_spectral_class (rng : Rng) : SpectralClassType × Rng :=
  let (u, rng') := nextUnit rng
  (if u * 3 < 1 then .F else if u * 3 < 2 then .G else .K, rng')

/-- `spectral_class_to_mass_range`.  Modelled from the spec ("map the class
to a mass range"); values are conventional main-sequence mass ranges, all
with positive lower bounds. -/
def spectral_class_to_mass_range : SpectralClassType → ℚ × ℚ
  | .O => (16, 120)
  | .B => (21 / 10, 16)
  | .A => (7 / 5, 21 / 10)
  | .F => (26 / 25, 7 / 5)
  | .G => (4 / 5, 26 / 25)
  | .K => (9 / 20, 4 / 5)
  | .M => (2 / 25, 9 / 20)
  | .L => (1 / 20, 2 / 25)
  | .T => (3 / 100, 1 / 20)
  | .Y => (1 / 100, 3 / 100)
  | .D => (17 / 100, 133 / 100)

/-- `spectral_class_to_habitable_mass_range`.  Modelled from the spec: the
habitable narrowing of the class mass range. -/
def spectral_class_to_habitable_mass_range : SpectralClassType → ℚ × ℚ
  | .F => (26 / 25, 13 / 10)
  | .G => (4 / 5, 26 / 25)
  | .K => (3 / 5, 4 / 5)
  | c => spectral_class_to_mass_range c

/-- `Constraints::generate` for stars
(src/src/astronomy/star/constraints/mod.rs): draw a spectral class
(habitable subset if flagged), draw the mass from the class range, build the
star via `Star::from_mass`, then redraw `current_age` from
`[minimum_age, 0.9 * life_expectancy)` where `minimum_age` is
`MINIMUM_HABITABLE_AGE` when habitability is enforced and
`0.1 * life_expectancy` otherwise.  Note the resolved `minimum_mass` /
`maximum_mass` fields are never read by the source. -/
def StarConstraints.generate (o : Oracle) (c : StarConstraints) (rng : Rng) :
    Except Err (StarEntity × Rng) :=
  let class_draw :=
    if c.make_habitable then get_random_habitable_spectral_class rng
    else get_random_spectral_class rng
  let random_spectral_class := class_draw.1
  let rng1 := class_draw.2
  let random_range :=
    if c.make_habitable then spectral_class_to_habitable_mass_range random_spectral_class
    else spectral_class_to_mass_range random_spectral_class
  match genRange random_range.1 random_range.2 rng1 with
  | .error e => .error e
  | .ok (mass, rng2) =>
  match StarEntity.from_mass o rng2 mass with
  | .error e => .error e
  | .ok (result, rng3) =>
  let minimum_age :=
    if c.make_habitable then MINIMUM_HABITABLE_AGE else 0.1 * result.life_expectancy
  let maximum_age := 0.9 * result.life_expectancy
  match genRange minimum_age maximum_age rng3 with
  | .error e => .error e
  | .ok (current_age, rng4) => .ok ({ result with current_age := current_age }, rng4)

/-- The recursive subsystem tree `StarSubsystemType`
(src/src/astronomy/star_system/subsystem/type/mod.rs).  The source's
`Double` arm owns two boxed `StarSubsystem` values; the `StarSubsystem`
wrapper module is not staged, and per the spec's data model ("recursive sum
type `Single(Star) | Double(left, right)`") it is identified with its type
here. -/
inductive StarSubsystemType : Type
  | single (star : StarEntity)
  | double (sub1 sub2 : StarSubsystemType)
  deriving DecidableEq, Repr

/-- `StarSubsystemType::get_mass`: recursive sum over leaves, in Msol. -/
def StarSubsystemType.get_mass : StarSubsystemType → ℚ
  | .single star => star.mass
  | .double sub1 sub2 => sub1.get_mass + sub2.get_mass

/-- `StarSubsystemType::get_count`: the number of stars as a `u8`; the
`u8` addition of the `Double` arm wraps modulo `2^8`. -/
def StarSubsystemType.get_count : StarSubsystemType → Nat
  | .single _ => 1
  | .double sub1 sub2 => (sub1.get_count + sub2.get_count) % 256

/-- `StarSubsystemType::get_luminosity`: recursive sum over leaves, in Lsol. -/
def StarSubsystemType.get_luminosity : StarSubsystemType → ℚ
  | .single star => star.luminosity
  | .double sub1 sub2 => sub1.get_luminosity + sub2.get_luminosity

/-- `StarSubsystemType::check_habitable`: a `Single` leaf delegates to the
star's check; a `Double` node fails only when neither child subtree is
habitable (`is_habitable` is inlined as "its check succeeds"). -/
def StarSubsystemType.check_habitable : StarSubsystemType → Except Err Unit
  | .single star => star.check_habitable
  | .double sub1 sub2 =>
    if !(exceptIsOk sub1.check_habitable) && !(exceptIsOk sub2.check_habitable) then
      .error .noHabitableZoneFoundInSubsystem
    else
      .ok ()

/-- `StarSubsystemType::is_habitable`. -/
def StarSubsystemType.is_habitable (t : StarSubsystemType) : Bool :=
  exceptIsOk t.check_habitable

/-- The legacy subsystem `Constraints` consumed by
`StarSubsystemType::get_random_constrained`.  Modelled from the spec: the
module defining it is not staged; the staged generator reads exactly these
two fields. -/
structure SubsystemTypeConstraints : Type where
  binary_probability : Option ℚ
  star_constraints : Option LegacyStarConstraints
  deriving DecidableEq, Repr

/-- `StarSubsystemType::get_random_constrained`
(src/src/astronomy/star_system/subsystem/type/mod.rs): a Bernoulli draw
selects `Double` (two independent recursive children, swapped into
descending-mass order) versus `Single` (one constrained main-sequence
star).  The source recursion is unbounded (spec §9); the embedding adds an
explicit `fuel` argument and fails with the artifact error `fuelExhausted`
when it runs out. -/
def StarSubsystemType.get_random_constrained (o : Oracle) :
    Nat → SubsystemTypeConstraints → Rng → Except Err (StarSubsystemType × Rng)
  | 0, _, _ => .error .fuelExhausted
  | fuel + 1, c, rng =>
    let binary_probability := c.binary_probability.getD PROBABILITY_OF_BINARY_STARS
    match genRange 0 1 rng with
    | .error e => .error e
    | .ok (x, rng1) =>
    let is_binary := x ≤ binary_probability
    let star_constraints := c.star_constraints.getD LegacyStarConstraints.default
    if is_binary then
      match StarSubsystemType.get_random_constrained o fuel c rng1 with
      | .error e => .error e
      | .ok (sub_a, rng2) =>
      match StarSubsystemType.get_random_constrained o fuel c rng2 with
      | .error e => .error e
      | .ok (sub_b, rng3) =>
        let first := if sub_a.get_mass > sub_b.get_mass then sub_a else sub_b
        let second := if sub_a.get_mass > sub_b.get_mass then sub_b else sub_a
        .ok (.double first second, rng3)
    else
      match StarEntity.get_random_main_sequence_constrained o star_constraints rng1 with
      | .error e => .error e
      | .ok (star, rng2) => .ok (.single star, rng2)

/-! Close binary star constants.  Modelled from the spec: the constants
module is not staged; representative positive values. -/

/-- Modelled from the spec: default minimum combined mass, in Msol. -/
def MINIMUM_COMBINED_MASS : ℚ := 3 / 20

/-- Modelled from the spec: default maximum combined mass, in Msol. -/
def MAXIMUM_COMBINED_MASS : ℚ := 240

/-- Modelled from the spec: default minimum individual mass, in Msol. -/
def MINIMUM_INDIVIDUAL_MASS : ℚ := 3 / 40

/-- Modelled from the spec: default maximum individual mass, in Msol. -/
def MAXIMUM_INDIVIDUAL_MASS : ℚ := 120

/-- Modelled from the spec: default minimum average separation, in AU. -/
def MINIMUM_AVERAGE_SEPARATION : ℚ := 1 / 25

/-- Modelled from the spec: default maximum average separation, in AU. -/
def MAXIMUM_AVERAGE_SEPARATION : ℚ := 2 / 5

/-- Modelled from the spec: default minimum orbital eccentricity. -/
def MINIMUM_ORBITAL_ECCENTRICITY : ℚ := 0

/-- Modelled from the spec: default maximum orbital eccentricity. -/
def MAXIMUM_ORBITAL_ECCENTRICITY : ℚ := 7 / 10

/-- Modelled from the spec: the minimum viable main-sequence star mass kept
for the secondary component, in Msol. -/
def MINIMUM_MAIN_SEQUENCE_STAR_MASS : ℚ := 3 / 40

/-- The `CloseBinaryStar` record.  Modelled from the spec: the entity module
is not staged; two stars plus the sampled separation and eccentricity
(derived combined zones are read by no claim). -/
structure CloseBinaryStar : Type where
  primary : StarEntity
  secondary : StarEntity
  average_separation : ℚ
  orbital_eccentricity : ℚ
  deriving DecidableEq, Repr

/-- `CloseBinaryStar::from_stars`.  Modelled from the spec: composes the
record from its parts (spec §4.3 "compose into a CloseBinaryStar"). -/
def CloseBinaryStar.from_stars (rng : Rng) (primary secondary : StarEntity)
    (average_separation orbital_eccentricity : ℚ) : Except Err (CloseBinaryStar × Rng) :=
  .ok ({ primary := primary
         secondary := secondary
         average_separation := average_separation
         orbital_eccentricity := orbital_eccentricity }, rng)

/-- The close-binary-star `Constraints`
(src/src/astronomy/close_binary_star/constraints/mod.rs), field for field. -/
structure CloseBinaryStarConstraints : Type where
  minimum_combined_mass : Option ℚ
  maximum_combined_mass : Option ℚ
  minimum_individual_mass : Option ℚ
  maximum_individual_mass : Option ℚ
  minimum_average_separation : Option ℚ
  maximum_average_separation : Option ℚ
  minimum_orbital_eccentricity : Option ℚ
  maximum_orbital_eccentricity : Option ℚ
  minimum_age : Option ℚ
  maximum_age : Option ℚ
  enforce_habitability : Bool
  deriving DecidableEq, Repr

/-- `Constraints::generate` for close binary stars
(src/src/astronomy/close_binary_star/constraints/mod.rs): resolve every
bound, draw eccentricity then average separation, and — when habitability is
enforced — RECOMPUTE the minimum combined mass from the resolved maximum
separation and the drawn eccentricity before the combined-mass draw; then
split the combined mass and build the two stars. -/
def CloseBinaryStarConstraints.generate (o : Oracle)
    (c : CloseBinaryStarConstraints) (rng : Rng) : Except Err (CloseBinaryStar × Rng) :=
  let minimum_combined_mass := c.minimum_combined_mass.getD MINIMUM_COMBINED_MASS
  let maximum_combined_mass := c.maximum_combined_mass.getD MAXIMUM_COMBINED_MASS
  let _minimum_individual_mass := c.minimum_individual_mass.getD MINIMUM_INDIVIDUAL_MASS
  let _maximum_individual_mass := c.maximum_individual_mass.getD MAXIMUM_INDIVIDUAL_MASS
  let minimum_orbital_eccentricity :=
    c.minimum_orbital_eccentricity.getD MINIMUM_ORBITAL_ECCENTRICITY
  let maximum_orbital_eccentricity :=
    c.maximum_orbital_eccentricity.getD MAXIMUM_ORBITAL_ECCENTRICITY
  let minimum_average_separation :=
    c.minimum_average_separation.getD MINIMUM_AVERAGE_SEPARATION
  let maximum_average_separation :=
    c.maximum_average_separation.getD MAXIMUM_AVERAGE_SEPARATION
  match genRange minimum_orbital_eccentricity maximum_orbital_eccentricity rng with
  | .error e => .error e
  | .ok (orbital_eccentricity, rng1) =>
  match genRange minimum_average_separation maximum_average_separation rng1 with
  | .error e => .error e
  | .ok (average_separation, rng2) =>
  let minimum_combined_mass :=
    if c.enforce_habitability then
      o.powf (1.1 * o.powf (4 * maximum_average_separation * (1 + orbital_eccentricity)) 2)
        (1 / 4)
    else minimum_combined_mass
  match genRange minimum_combined_mass maximum_combined_mass rng2 with
  | .error e => .error e
  | .ok (combined_mass, rng3) =>
  let half := combined_mass / 2
  let top := combined_mass - MINIMUM_MAIN_SEQUENCE_STAR_MASS
  match genRange half top rng3 with
  | .error e => .error e
  | .ok (primary_mass, rng4) =>
  let secondary_mass := combined_mass - primary_mass
  match StarEntity.from_mass o rng4 primary_mass with
  | .error e => .error e
  | .ok (primary, rng5) =>
  match StarEntity.from_mass o rng5 secondary_mass with
  | .error e => .error e
  | .ok (secondary, rng6) =>
    CloseBinaryStar.from_stars rng6 primary secondary average_separation orbital_eccentricity

/-- Modelled from the spec: default gas-giant mass bounds (gas-giant
constants module, not staged), in Mjupiter. -/
def GAS_GIANT_MINIMUM_MASS : ℚ := 1 / 10

/-- Modelled from the spec: default gas-giant mass bounds (gas-giant
constants module, not staged), in Mjupiter. -/
def GAS_GIANT_MAXIMUM_MASS : ℚ := 13

/-- The `GasGiantPlanet` record.  Modelled from the spec: the entity module
is not staged; the fields are those the staged generator assigns. -/
structure GasGiantPlanet : Type where
  mass : ℚ
  semi_major_axis : ℚ
  orbital_eccentricity : ℚ
  perihelion : ℚ
  aphelion : ℚ
  orbital_period : ℚ
  deriving DecidableEq, Repr

/-- `GasGiantPlanet::from_mass`.  Modelled from the spec: builds the planet
from its mass; the orbital fields are assigned afterwards by the generator. -/
def GasGiantPlanet.from_mass (mass : ℚ) : Except Err GasGiantPlanet :=
  .ok { mass := mass
        semi_major_axis := 0
        orbital_eccentricity := 0
        perihelion := 0
        aphelion := 0
        orbital_period := 0 }

/-- The gas-giant-planet `Constraints`
(src/src/astronomy/gas_giant_planet/constraints/mod.rs). -/
structure GasGiantPlanetConstraints : Type where
  minimum_mass : Option ℚ
  maximum_mass : Option ℚ
  deriving DecidableEq, Repr

/-- `Constraints::generate` for gas giants
(src/src/astronomy/gas_giant_planet/constraints/mod.rs): resolve the mass
bounds, draw the mass from `LogNormal::new(0.2, 0.5)` (the external
log-normal variate capability of the oracle), and derive the orbital fields
from `distance` by closed form.  The host star parameter is unused by the
source (`_host_star`), and the resolved bounds are never applied to the
drawn mass. -/
def GasGiantPlanetConstraints.generate (o : Oracle) (c : GasGiantPlanetConstraints)
    (_host_star : Unit) (distance : ℚ) (rng : Rng) : Except Err (GasGiantPlanet × Rng) :=
  let _minimum_mass := c.minimum_mass.getD GAS_GIANT_MINIMUM_MASS
  let _maximum_mass := c.maximum_mass.getD GAS_GIANT_MAXIMUM_MASS
  let (mass, rng1) := o.log_normal (2 / 10) (1 / 2) rng
  match GasGiantPlanet.from_mass mass with
  | .error e => .error e
  | .ok planet =>
  let planet := { planet with semi_major_axis := distance }
  let orbital_eccentricity : ℚ := 167 / 10000
  let planet := { planet with orbital_eccentricity := orbital_eccentricity }
  let planet := { planet with perihelion := (1 - orbital_eccentricity) * distance }
  let planet := { planet with aphelion := (1 + orbital_eccentricity) * distance }
  let planet := { planet with orbital_period := o.sqrt (o.powf distance 3) }
  .ok (planet, rng1)

/-- The star-system error (src/src/astronomy/star_system, error module not
staged; the staged source constructs exactly this variant). -/
inductive StarSystemError : Type
  | noSuitableSubsystemsCouldBeGenerated
  deriving DecidableEq, Repr

/-- The subsystem `Constraints` (src/src/astronomy/star_subsystem/constraints/mod.rs):
an empty record. -/
structure SubsystemConstraints : Type where
  deriving DecidableEq, Repr

/-- `Constraints::default` for subsystems: the empty record. -/
def SubsystemConstraints.default : SubsystemConstraints := {}

/-- The star-system `Constraints`.  Modelled from the spec: the constraints
module is not staged; the staged `from_constraints` reads exactly these two
optional fields (`retries` is a caller-visible attempt budget, spec §4.7). -/
structure StarSystemConstraints : Type where
  subsystem_constraints : Option SubsystemConstraints
  retries : Option Nat
  deriving DecidableEq, Repr

/-- The `StarSystem` record (src/src/astronomy/star_system/mod.rs): the
generated subsystem plus the display name.  The subsystem type is a
parameter: the subsystem generator itself (planetary-system /
distant-binary-star chain) is not staged, and the retry claims quantify
over it. -/
structure StarSystem (σ : Type) : Type where
  subsystem : σ
  name : String
  deriving DecidableEq, Repr

/-- The retry loop of `StarSystem::from_constraints`
(src/src/astronomy/star_system/mod.rs lines 41–56): attempt a generation;
on success break with the candidate; on failure, return the single
exhaustion error when `retries` is zero and otherwise decrement and loop.
The source's `retries == 0` test appears here as the `Nat` pattern, so the
recursion is structural. -/
def attemptLoop {ρ ε σ : Type} (g : ρ → Except ε σ × ρ) :
    Nat → ρ → Except StarSystemError σ × ρ
  | 0, rng =>
    match g rng with
    | (.ok candidate, rng') => (.ok candidate, rng')
    | (.error _, rng') => (.error .noSuitableSubsystemsCouldBeGenerated, rng')
  | retries + 1, rng =>
    match g rng with
    | (.ok candidate, rng') => (.ok candidate, rng')
    | (.error _, rng') => attemptLoop g retries rng'

/-- `StarSystem::from_constraints` (src/src/astronomy/star_system/mod.rs):
resolve the subsystem constraints (default when unset) and the retry budget
(default 10 when unset), run the retry loop, and on success attach the
constant name `"Steve"`.  `sgen` stands for the un-staged
`subsystem_constraints.generate`; it is a parameter over which the claims
quantify, threading an abstract stream state `ρ`. -/
def StarSystem.from_constraints {ρ ε σ : Type}
    (sgen : SubsystemConstraints → ρ → Except ε σ × ρ)
    (c : StarSystemConstraints) (rng : ρ) :
    Except StarSystemError (StarSystem σ) × ρ :=
  let subsystem_constraints := c.subsystem_constraints.getD SubsystemConstraints.default
  let retries := c.retries.getD 10
  match attemptLoop (sgen subsystem_constraints) retries rng with
  | (.ok subsystem, rng') => (.ok { subsystem := subsystem, name := "Steve" }, rng')
  | (.error e, rng') => (.error e, rng')

/-- The stream state after `n` calls of the generator `g` starting from
`rng` (a specification-side device for counting attempts). -/
def genStates {ρ ε σ : Type} (g : ρ → Except ε σ × ρ) (rng : ρ) : Nat → ρ
  | 0 => rng
  | n + 1 => (g (genStates g rng n)).2

/-- The subsystem generator `from_constraints` actually runs: `sgen` at the
resolved subsystem constraints. -/
def resolvedSubsystemGen {ρ ε σ : Type}
    (sgen : SubsystemConstraints → ρ → Except ε σ × ρ)
    (c : StarSystemConstraints) : ρ → Except ε σ × ρ :=
  sgen (c.subsystem_constraints.getD SubsystemConstraints.default)

/-! The real-valued mirror of the zone aggregation
(src/src/astronomy/star_system/subsystem/type/mod.rs), over `ℝ` with the
genuine square root: the habitable-zone / frost-line claims are about exact
coincidence of closed-form formulas, which is a statement about real
square roots. -/

/-- The fields of a star the zone aggregation reads, over `ℝ`. -/
structure RStar : Type where
  luminosity : ℝ
  habitable_zone : ℝ × ℝ
  frost_line : ℝ

/-- The subsystem tree over `RStar`. -/
inductive RSubsystem : Type
  | single (star : RStar)
  | double (sub1 sub2 : RSubsystem)

/-- `StarSubsystemType::get_luminosity`, real-valued. -/
noncomputable def RSubsystem.get_luminosity : RSubsystem → ℝ
  | .single star => star.luminosity
  | .double sub1 sub2 => sub1.get_luminosity + sub2.get_luminosity

/-- `StarSubsystemType::get_habitable_zone`
(src/src/astronomy/star_system/subsystem/type/mod.rs lines 106–122): a
`Single` reports the star's stored zone; a `Double` computes
`(0.95, 1.37) * sqrt` of the combined luminosity. -/
noncomputable def RSubsystem.get_habitable_zone : RSubsystem → ℝ × ℝ
  | .single star => star.habitable_zone
  | .double sub1 sub2 =>
    let base := Real.sqrt (sub1.get_luminosity + sub2.get_luminosity)
    (0.95 * base, 1.37 * base)

/-- `StarSubsystemType::get_frost_line`
(src/src/astronomy/star_system/subsystem/type/mod.rs lines 147–162): a
`Single` reports the star's stored frost line; a `Double` computes
`4.85 * sqrt` of the combined luminosity. -/
noncomputable def RSubsystem.get_frost_line : RSubsystem → ℝ
  | .single star => star.frost_line
  | .double sub1 sub2 => 4.85 * Real.sqrt (sub1.get_luminosity + sub2.get_luminosity)

/-- The habitable-zone formula a single star is built with
(src/src/astronomy/star/mod.rs: `((luminosity / 1.1).sqrt(), (luminosity / 0.53).sqrt())`). -/
noncomputable def starHabitableZoneFormula (luminosity : ℝ) : ℝ × ℝ :=
  (Real.sqrt (luminosity / 1.1), Real.sqrt (luminosity / 0.53))

/-- The frost-line formula a single star is built with
(src/src/astronomy/star/mod.rs: `4.85 * luminosity.sqrt()`). -/
noncomputable def starFrostLineFormula (luminosity : ℝ) : ℝ :=
  4.85 * Real.sqrt luminosity

/-! Specification-side definitions, written from the claims' words, to be
compared with the source-derived operations. -/

/-- The number of `Single` leaves of a subsystem tree (the claim's count). -/
def numSingleLeaves : StarSubsystemType → Nat
  | .single _ => 1
  | .double sub1 sub2 => numSingleLeaves sub1 + numSingleLeaves sub2

/-- The sum of the masses of the stars at the `Single` leaves (the claim's
aggregate mass). -/
def leafMassSum : StarSubsystemType → ℚ
  | .single star => star.mass
  | .double sub1 sub2 => leafMassSum sub1 + leafMassSum sub2

/-- The claim's "strict multi-condition star habitability check": mass
within the habitable mass range AND current age at least the minimum
habitable age. -/
def starStrictHabitable (s : StarEntity) : Prop :=
  MINIMUM_STAR_MASS_TO_SUPPORT_LIFE ≤ s.mass ∧
  s.mass ≤ MAXIMUM_STAR_MASS_TO_SUPPORT_LIFE ∧
  MINIMUM_STAR_AGE_TO_SUPPORT_LIFE ≤ s.current_age

instance (s : StarEntity) : Decidable (starStrictHabitable s) := by
  unfold starStrictHabitable; infer_instance

/-- A concrete oracle instance used by the evaluation theorems: constant
formula values, a trivial square root, a `powf` that squares when the
exponent is `2` and is the identity otherwise, and a log-normal capability
returning `50`. -/
def probeOracle : Oracle :=
  { temperature := fun _ => some 3000
    luminosity := fun _ => some 10
    radius := fun _ => some 1
    absolute_rgb := fun _ => some (0, 0, 0)
    sqrt := fun _ => 0
    powf := fun x y => if y = 2 then x * x else x
    log_normal := fun _ _ rng => (50, rng) }

/-- The star the probe oracle yields for a mass draw of `5/2`
(`get_random_constrained` probe run, heavier child). -/
def probeStarA : StarEntity :=
  { class_ := .M, mass := 5 / 2, temperature := 3000, radius := 1, luminosity := 10
    life_expectancy := 5 / 2, current_age := 5 / 4, density := 5 / 2
    habitable_zone := (0, 0), approximate_satellite_inner_bound := 1 / 4
    approximate_satellite_outer_bound := 100, frost_line := 0, absolute_rgb := (0, 0, 0) }

/-- The star the probe oracle yields for a mass draw of `3/2`
(`get_random_constrained` probe run, lighter child). -/
def probeStarB : StarEntity :=
  { class_ := .M, mass := 3 / 2, temperature := 3000, radius := 1, luminosity := 10
    life_expectancy := 3 / 2, current_age := 3 / 4, density := 3 / 2
    habitable_zone := (0, 0), approximate_satellite_inner_bound := 3 / 20
    approximate_satellite_outer_bound := 60, frost_line := 0, absolute_rgb := (0, 0, 0) }

/-- The star the probe oracle yields from the default star constraints on
the all-halves stream (class M, mass `53/200`). -/
def probeStarM : StarEntity :=
  { class_ := .M, mass := 53 / 200, temperature := 3000, radius := 1, luminosity := 10
    life_expectancy := 53 / 200, current_age := 53 / 400, density := 53 / 200
    habitable_zone := (0, 0), approximate_satellite_inner_bound := 53 / 2000
    approximate_satellite_outer_bound := 53 / 5, frost_line := 0, absolute_rgb := (0, 0, 0) }

/-- A star that is old enough to pass the age-only habitability check while
its mass (100 Msol) lies far outside any habitable mass range. -/
def probeStarWide : StarEntity :=
  { class_ := .M, mass := 100, temperature := 3000, radius := 1, luminosity := 10
    life_expectancy := 100, current_age := 5, density := 100
    habitable_zone := (0, 0), approximate_satellite_inner_bound := 10
    approximate_satellite_outer_bound := 4000, frost_line := 0, absolute_rgb := (0, 0, 0) }

/-- The full binary tree of depth `n` over one star: `2 ^ n` `Single` leaves. -/
def fullDoubleTree (s : StarEntity) : Nat → StarSubsystemType
  | 0 => .single s
  | n + 1 => .double (fullDoubleTree s n) (fullDoubleTree s n)

/-! Helper lemmas (shared; no claim theorem among them). -/

/-- The next unit draw lies in `[0, 1)`. -/
theorem nextUnit_mem (rng : Rng) : 0 ≤ (nextUnit rng).1 ∧ (nextUnit rng).1 < 1 := by
  rcases rng with ⟨draws⟩
  cases draws with
  | nil => simp [nextUnit]
  | cons u rest =>
    by_cases h : 0 ≤ u ∧ u < 1
    · simp [nextUnit, h]
    · simp [nextUnit, h]

/-- A successful `genRange` draw lies in the half-open range `[lo, hi)`. -/
theorem genRange_ok {lo hi x : ℚ} {rng rng' : Rng}
    (h : genRange lo hi rng = .ok (x, rng')) : lo ≤ x ∧ x < hi := by
  unfold genRange at h
  split at h
  case isTrue hlt =>
    obtain ⟨hu0, hu1⟩ := nextUnit_mem rng
    simp only [Except.ok.injEq, Prod.mk.injEq] at h
    obtain ⟨hx, -⟩ := h
    subst hx
    constructor
    · nlinarith
    · nlinarith
  case isFalse => exact absurd h (by simp)

/-- Fields of a star built by `from_mass`: its mass is the input mass, its
luminosity is the oracle's, and its life expectancy is
`mass / luminosity * 10`. -/
theorem starFromMass_fields {o : Oracle} {rng rng' : Rng} {m : ℚ} {s : StarEntity}
    (h : StarEntity.from_mass o rng m = .ok (s, rng')) :
    s.mass = m ∧ o.luminosity m = some s.luminosity ∧
    s.life_expectancy = s.mass / s.luminosity * 10 := by
  unfold StarEntity.from_mass StarEntity.get_main_sequence_from_mass at h
  rcases ht : o.temperature m with - | temperature
  · rw [ht] at h; exact Except.noConfusion h
  rw [ht] at h
  rcases hl : o.luminosity m with - | luminosity
  · rw [hl] at h; exact Except.noConfusion h
  rw [hl] at h
  rcases hr : o.radius m with - | radius
  · rw [hr] at h; exact Except.noConfusion h
  rw [hr] at h
  rcases hc : SpectralClassType.get_main_sequence_from_mass o m with e | cls
  · rw [hc] at h; exact Except.noConfusion h
  rw [hc] at h
  simp only at h
  rcases hg : genRange (0.2 * (m / luminosity * 10)) (0.8 * (m / luminosity * 10)) rng with
    e | ⟨current_age, rng2⟩
  · rw [hg] at h; exact Except.noConfusion h
  rw [hg] at h
  rcases hb : o.absolute_rgb m with - | absolute_rgb
  · rw [hb] at h; exact Except.noConfusion h
  rw [hb] at h
  simp only [Except.ok.injEq, Prod.mk.injEq] at h
  obtain ⟨hs, -⟩ := h
  subst hs
  exact ⟨rfl, by simp [hl], rfl⟩

/-- Every class mass range, habitable or not, has a positive lower bound. -/
theorem massRange_pos (cls : SpectralClassType) :
    0 < (spectral_class_to_mass_range cls).1 ∧
    0 < (spectral_class_to_habitable_mass_range cls).1 := by
  cases cls <;>
    norm_num [spectral_class_to_mass_range, spectral_class_to_habitable_mass_range]

/-- `genStates` after one generator step. -/
theorem genStates_shift {ρ ε σ : Type} (g : ρ → Except ε σ × ρ) (rng : ρ) (n : Nat) :
    genStates g (g rng).2 n = genStates g rng (n + 1) := by
  induction n with
  | zero => rfl
  | succ n ih => simp [genStates, ih]

/-- Full characterization of the retry loop: either some attempt `k` within
the budget succeeds — all earlier attempts having failed — and the loop
returns its candidate after exactly `k + 1` generator calls, or all
`retries + 1` attempts fail and the loop returns the single exhaustion
error after exactly `retries + 1` generator calls. -/
theorem attemptLoop_characterization {ρ ε σ : Type} (g : ρ → Except ε σ × ρ)
    (retries : Nat) (rng : ρ) :
    (∃ k, k ≤ retries ∧ (∀ j, j < k → exceptIsOk (g (genStates g rng j)).1 = false) ∧
      ∃ s, (g (genStates g rng k)).1 = .ok s ∧
        attemptLoop g retries rng = (.ok s, genStates g rng (k + 1))) ∨
    ((∀ j, j ≤ retries → exceptIsOk (g (genStates g rng j)).1 = false) ∧
      attemptLoop g retries rng =
        (.error .noSuitableSubsystemsCouldBeGenerated, genStates g rng (retries + 1))) := by
  induction retries generalizing rng with
  | zero =>
    rcases hg : g rng with ⟨res, rng'⟩
    cases res with
    | ok s =>
      left
      refine ⟨0, le_rfl, by intro j hj; omega, s, ?_, ?_⟩
      · show (g rng).1 = .ok s
        rw [hg]
      · show attemptLoop g 0 rng = (.ok s, genStates g rng 1)
        simp [attemptLoop, hg, genStates]
    | error e =>
      right
      constructor
      · intro j hj
        have hj0 : j = 0 := Nat.le_zero.mp hj
        subst hj0
        show exceptIsOk (g rng).1 = false
        rw [hg]
        rfl
      · show attemptLoop g 0 rng =
          (.error .noSuitableSubsystemsCouldBeGenerated, genStates g rng 1)
        simp [attemptLoop, hg, genStates]
  | succ r ih =>
    rcases hg : g rng with ⟨res, rng'⟩
    cases res with
    | ok s =>
      left
      refine ⟨0, by omega, by intro j hj; omega, s, ?_, ?_⟩
      · show (g rng).1 = .ok s
        rw [hg]
      · show attemptLoop g (r + 1) rng = (.ok s, genStates g rng 1)
        simp [attemptLoop, hg, genStates]
    | error e =>
      have hstep : attemptLoop g (r + 1) rng = attemptLoop g r rng' := by
        simp [attemptLoop, hg]
      have hrng' : rng' = (g rng).2 := by rw [hg]
      have hshift : ∀ n, genStates g rng' n = genStates g rng (n + 1) := by
        intro n
        rw [hrng']
        exact genStates_shift g rng n
      rcases ih rng' with ⟨k, hk, herr, s, hok, heq⟩ | ⟨herr, heq⟩
      · left
        refine ⟨k + 1, by omega, ?_, s, ?_, ?_⟩
        · intro j hj
          cases j with
          | zero =>
            show exceptIsOk (g rng).1 = false
            rw [hg]
            rfl
          | succ i =>
            have hi := herr i (by omega)
            rwa [hshift] at hi
        · have hoks := hok
          rwa [hshift] at hoks
        · rw [hstep, heq, hshift]
      · right
        constructor
        · intro j hj
          cases j with
          | zero =>
            show exceptIsOk (g rng).1 = false
            rw [hg]
            rfl
          | succ i =>
            have hi := herr i (by omega)
            rwa [hshift] at hi
        · rw [hstep, heq, hshift]

/-- C2 (amended): for every constraints record, subsystem generator and
stream, `StarSystem::from_constraints` resolves the retry budget to
`retries` (10 when unset) and attempts subsystem generation at most
`retries + 1` times: either some attempt `k ≤ retries` succeeds — all
earlier attempts having failed — and the result is the first success
(wrapped with the name), leaving the stream after exactly `k + 1` attempts,
or all `retries + 1` attempts fail and the single failure
`NoSuitableSubsystemsCouldBeGenerated` is returned, the individual attempt
errors being discarded. -/
theorem from_constraints_retry_behaviour {ρ ε σ : Type}
    (sgen : SubsystemConstraints → ρ → Except ε σ × ρ)
    (c : StarSystemConstraints) (rng : ρ) :
    (∃ k, k ≤ c.retries.getD 10 ∧
      (∀ j, j < k →
        exceptIsOk (resolvedSubsystemGen sgen c
          (genStates (resolvedSubsystemGen sgen c) rng j)).1 = false) ∧
      ∃ s, (resolvedSubsystemGen sgen c
          (genStates (resolvedSubsystemGen sgen c) rng k)).1 = .ok s ∧
        StarSystem.from_constraints sgen c rng =
          (.ok { subsystem := s, name := "Steve" },
           genStates (resolvedSubsystemGen sgen c) rng (k + 1))) ∨
    ((∀ j, j ≤ c.retries.getD 10 →
        exceptIsOk (resolvedSubsystemGen sgen c
          (genStates (resolvedSubsystemGen sgen c) rng j)).1 = false) ∧
      StarSystem.from_constraints sgen c rng =
        (.error .noSuitableSubsystemsCouldBeGenerated,
         genStates (resolvedSubsystemGen sgen c) rng (c.retries.getD 10 + 1))) := by
  have hfc : StarSystem.from_constraints sgen c rng =
      (match attemptLoop (resolvedSubsystemGen sgen c) (c.retries.getD 10) rng with
       | (.ok subsystem, rng') => (.ok { subsystem := subsystem, name := "Steve" }, rng')
       | (.error e, rng') => (.error e, rng')) := rfl
  rcases attemptLoop_characterization (resolvedSubsystemGen sgen c) (c.retries.getD 10) rng
    with ⟨k, hk, herr, s, hok, heq⟩ | ⟨herr, heq⟩
  · left
    refine ⟨k, hk, herr, s, hok, ?_⟩
    rw [hfc, heq]
  · right
    refine ⟨herr, ?_⟩
    rw [hfc, heq]

/-- C2 (counterexample to the claim as stated): with `retries` unset — the
claimed bound is then the default 10 — and a generator over the
instrumented state `ρ := Nat` that counts its calls and always fails,
`from_constraints` leaves the counter at 11: it makes 11 attempts, more
than the claimed "at most `retries` = 10". -/
theorem from_constraints_attempt_count_exceeds_retries :
    (StarSystem.from_constraints
        (fun _ n => ((Except.error () : Except Unit Unit), n + 1))
        { subsystem_constraints := none, retries := none } 0).2 = 11 ∧
    ¬ (11 ≤ 10) := by
  constructor
  · rfl
  · omega

/-- C9: `StarSystem::from_constraints` with `retries = 0` performs exactly
one generation attempt: it returns that attempt's success (named), or the
exhaustion failure immediately after that single attempt; the final stream
state is the state after the one attempt in either case. -/
theorem from_constraints_zero_retries_single_attempt {ρ ε σ : Type}
    (sgen : SubsystemConstraints → ρ → Except ε σ × ρ)
    (sc : Option SubsystemConstraints) (rng : ρ) :
    StarSystem.from_constraints sgen { subsystem_constraints := sc, retries := some 0 } rng =
      (match resolvedSubsystemGen sgen { subsystem_constraints := sc, retries := some 0 } rng with
       | (.ok s, rng') => (.ok { subsystem := s, name := "Steve" }, rng')
       | (.error _, rng') => (.error .noSuitableSubsystemsCouldBeGenerated, rng')) := by
  rcases hg : resolvedSubsystemGen sgen
      { subsystem_constraints := sc, retries := some 0 } rng with ⟨res, rng'⟩
  have hg' : sgen (sc.getD SubsystemConstraints.default) rng = (res, rng') := hg
  cases res <;>
    simp [StarSystem.from_constraints, attemptLoop, hg, hg']

/-- C10: whenever `StarSystem::from_constraints` succeeds, the name of the
returned star system is the constant string `"Steve"`, whatever the
constraints, generator and stream. -/
theorem from_constraints_name_is_steve {ρ ε σ : Type}
    (sgen : SubsystemConstraints → ρ → Except ε σ × ρ)
    (c : StarSystemConstraints) (rng : ρ) (sys : StarSystem σ) (rng' : ρ)
    (h : StarSystem.from_constraints sgen c rng = (.ok sys, rng')) :
    sys.name = "Steve" := by
  have hfc : StarSystem.from_constraints sgen c rng =
      (match attemptLoop (resolvedSubsystemGen sgen c) (c.retries.getD 10) rng with
       | (.ok subsystem, rng2) => (.ok { subsystem := subsystem, name := "Steve" }, rng2)
       | (.error e, rng2) => (.error e, rng2)) := rfl
  rw [hfc] at h
  rcases hA : attemptLoop (resolvedSubsystemGen sgen c) (c.retries.getD 10) rng with ⟨res, st⟩
  rw [hA] at h
  cases res with
  | ok s =>
    simp only [Prod.mk.injEq, Except.ok.injEq] at h
    obtain ⟨h1, -⟩ := h
    rw [← h1]
  | error e => simp at h

/-- C10 (witness): a concrete successful run — a generator that immediately
succeeds over the unit-like state `ρ := Nat` — indeed yields the name
`"Steve"`. -/
theorem from_constraints_name_is_steve_witness :
    ({ subsystem := (0 : Nat), name := "Steve" } : StarSystem Nat).name = "Steve" :=
  from_constraints_name_is_steve
    (fun _ n => ((Except.ok 0 : Except Unit Nat), n))
    { subsystem_constraints := none, retries := none } 0
    { subsystem := 0, name := "Steve" } 0 rfl

/-- C4 (amended): `get_mass` is the sum of the masses at the `Single`
leaves, and `get_count` is the number of `Single` leaves reduced modulo
`2^8` (`u8` arithmetic) — hence exactly the leaf count whenever that count
is below 256. -/
theorem get_mass_get_count_aggregate (t : StarSubsystemType) :
    t.get_mass = leafMassSum t ∧ t.get_count = numSingleLeaves t % 256 := by
  induction t with
  | single s =>
    simp [StarSubsystemType.get_mass, StarSubsystemType.get_count, numSingleLeaves,
      leafMassSum]
  | double a b iha ihb =>
    obtain ⟨ma, ca⟩ := iha
    obtain ⟨mb, cb⟩ := ihb
    constructor
    · simp [StarSubsystemType.get_mass, leafMassSum, ma, mb]
    · simp only [StarSubsystemType.get_count, numSingleLeaves, ca, cb]
      omega

/-- C4 (counterexample to the claim as stated): on the full binary tree with
`2^8 = 256` `Single` leaves, the `u8` star count wraps to 0 and is not the
number of `Single` leaves. -/
theorem get_count_overflows_at_256_leaves :
    (fullDoubleTree probeStarWide 8).get_count ≠ numSingleLeaves (fullDoubleTree probeStarWide 8) := by
  intro h
  have h0 : (fullDoubleTree probeStarWide 8).get_count = 0 := rfl
  have h256 : numSingleLeaves (fullDoubleTree probeStarWide 8) = 256 := rfl
  omega

/-- C5 (amended): `check_habitable` on a `Single` leaf succeeds exactly when
the star's current age is at least the minimum habitable age (the staged
star check has no mass condition), and on a `Double` node exactly when at
least one child subtree is habitable (logical OR). -/
theorem check_habitable_semantics (s : StarEntity) (a b : StarSubsystemType) :
    ((StarSubsystemType.single s).check_habitable = .ok () ↔
      MINIMUM_STAR_AGE_TO_SUPPORT_LIFE ≤ s.current_age) ∧
    ((StarSubsystemType.double a b).check_habitable = .ok () ↔
      (a.is_habitable = true ∨ b.is_habitable = true)) := by
  constructor
  · simp only [StarSubsystemType.check_habitable, StarEntity.check_habitable, ge_iff_le]
    split
    · simp_all
    · simp_all
  · simp only [StarSubsystemType.check_habitable, StarSubsystemType.is_habitable]
    cases ha : exceptIsOk a.check_habitable <;> cases hb : exceptIsOk b.check_habitable <;>
      simp

/-- C5 (counterexample to the claim as stated): a 100 Msol star — far outside
any habitable mass range — that is merely old enough passes the leaf
habitability check, so the leaf check is not the claimed mass-and-age
multi-condition check. -/
theorem single_check_habitable_ignores_mass :
    (StarSubsystemType.single probeStarWide).check_habitable = .ok () ∧
    ¬ starStrictHabitable probeStarWide := by
  constructor
  · rfl
  · intro h
    obtain ⟨-, h2, -⟩ := h
    norm_num [probeStarWide, MAXIMUM_STAR_MASS_TO_SUPPORT_LIFE] at h2

/-- C7 (amended): for every `Double` node, `get_frost_line` coincides
exactly with the single-star frost-line formula applied to the combined
luminosity, while `get_habitable_zone` is `(0.95·√L, 1.37·√L)` of the
combined luminosity `L` — fixed decimal coefficients that approximate but
do not equal the single-star habitable-zone formula; neither is a sum of
the children's individual zones. -/
theorem double_zones_from_combined_luminosity (a b : RSubsystem) :
    (RSubsystem.double a b).get_frost_line =
      starFrostLineFormula ((RSubsystem.double a b).get_luminosity) ∧
    (RSubsystem.double a b).get_habitable_zone =
      (0.95 * Real.sqrt ((RSubsystem.double a b).get_luminosity),
       1.37 * Real.sqrt ((RSubsystem.double a b).get_luminosity)) := by
  exact ⟨rfl, rfl⟩

/-- C7 (counterexample to the claim as stated): for two leaves of combined
luminosity 1, the `Double` habitable zone `(0.95, 1.37)` differs from the
single-star habitable-zone formula `(√(1/1.1), √(1/0.53))` at that combined
luminosity — `0.95² = 0.9025 ≠ 1/1.1`. -/
theorem double_habitable_zone_not_single_formula :
    (RSubsystem.double (.single ⟨1/2, (0, 0), 0⟩) (.single ⟨1/2, (0, 0), 0⟩)).get_habitable_zone ≠
      starHabitableZoneFormula
        ((RSubsystem.double (.single ⟨1/2, (0, 0), 0⟩) (.single ⟨1/2, (0, 0), 0⟩)).get_luminosity) := by
  intro h
  have h1 : (0.95 : ℝ) * Real.sqrt ((1 : ℝ) / 2 + 1 / 2) =
      Real.sqrt (((1 : ℝ) / 2 + 1 / 2) / 1.1) := congrArg Prod.fst h
  have hhint : ((1 : ℝ) / 2 + 1 / 2) = 1 := by norm_num
  rw [hhint, Real.sqrt_one, mul_one] at h1
  have h2 : ((0.95 : ℝ)) ^ 2 = Real.sqrt ((1 : ℝ) / 1.1) ^ 2 := by rw [h1]
  rw [Real.sq_sqrt (by norm_num : (0 : ℝ) ≤ 1 / 1.1)] at h2
  norm_num at h2

/-- C1 (code evaluation at the failing input): a close-binary constraint
record with habitability enforced whose recomputed minimum combined mass
exceeds the resolved maximum combined mass (here the recompute yields
`(1.1·(4·2·1.5)²)^(1/4) ≈ 3.55` in real arithmetic against a maximum of 2;
the probe `powf` keeps the bound at `158.4`).  Generation hits `rand`'s
empty-range panic at the combined-mass draw: it does not return a
`ConstraintUnsatisfiable` error value. -/
theorem close_binary_generate_panics_on_unsatisfiable_range :
    CloseBinaryStarConstraints.generate probeOracle
      { minimum_combined_mass := some 1, maximum_combined_mass := some 2,
        minimum_individual_mass := some (1/2), maximum_individual_mass := some (3/2),
        minimum_average_separation := some 1, maximum_average_separation := some 2,
        minimum_orbital_eccentricity := some 0, maximum_orbital_eccentricity := some 1,
        minimum_age := none, maximum_age := none, enforce_habitability := true }
      ⟨[1/2, 1/2]⟩ = .error .panicEmptyRange := rfl

/-- C6 (code evaluation at the failing inputs): the star generator draws its
mass from the spectral-class range and never reads the explicit
`minimum_mass`/`maximum_mass` overrides — with overrides `[10, 11)` it
returns a star of mass `53/200`; and the gas-giant generator draws its mass
from the log-normal capability and never applies the resolved bounds — with
resolved bounds `[1, 2)` it returns a planet of mass 50. -/
theorem generators_ignore_resolved_mass_bounds :
    (StarConstraints.generate probeOracle
        { minimum_mass := some 10, maximum_mass := some 11, make_habitable := false }
        ⟨[1/2, 1/2, 1/2, 1/2]⟩).map (fun p => p.1.mass) = .ok (53/200) ∧
    ¬ ((10 : ℚ) ≤ 53/200 ∧ (53/200 : ℚ) < 11) ∧
    (GasGiantPlanetConstraints.generate probeOracle
        { minimum_mass := some 1, maximum_mass := some 2 } () 1 ⟨[]⟩).map
      (fun p => p.1.mass) = .ok 50 ∧
    ¬ ((1 : ℚ) ≤ 50 ∧ (50 : ℚ) < 2) := by
  refine ⟨rfl, ?_, rfl, ?_⟩
  · intro h
    obtain ⟨h1, -⟩ := h
    norm_num at h1
  · intro h
    obtain ⟨-, h2⟩ := h
    norm_num at h2

/-- C3: every `Double` node built by `get_random_constrained` has its
children in descending-mass order: the second (right) child subtree's mass
never exceeds the first (left) child subtree's, the two recursively
generated children having been swapped into that order before the node was
built. -/
theorem double_children_descending_mass (o : Oracle) (fuel : Nat)
    (c : SubsystemTypeConstraints) (rng : Rng) (first second : StarSubsystemType)
    (rng' : Rng)
    (h : StarSubsystemType.get_random_constrained o fuel c rng =
      .ok (.double first second, rng')) :
    second.get_mass ≤ first.get_mass := by
  cases fuel with
  | zero => exact Except.noConfusion h
  | succ fuel =>
    simp only [StarSubsystemType.get_random_constrained] at h
    rcases hx : genRange 0 1 rng with e | ⟨x, rng1⟩
    · rw [hx] at h; exact Except.noConfusion h
    rw [hx] at h
    simp only [] at h
    split at h
    · rcases ha : StarSubsystemType.get_random_constrained o fuel c rng1 with
        e | ⟨sub_a, rng2⟩
      · rw [ha] at h; exact Except.noConfusion h
      rw [ha] at h
      simp only [] at h
      rcases hb : StarSubsystemType.get_random_constrained o fuel c rng2 with
        e | ⟨sub_b, rng3⟩
      · rw [hb] at h; exact Except.noConfusion h
      rw [hb] at h
      simp only [Except.ok.injEq, Prod.mk.injEq, StarSubsystemType.double.injEq] at h
      obtain ⟨⟨hf, hs⟩, -⟩ := h
      subst hf
      subst hs
      split_ifs with hgt
      · exact le_of_lt hgt
      · exact le_of_not_lt hgt
    · rcases hst : StarEntity.get_random_main_sequence_constrained o
          (c.star_constraints.getD LegacyStarConstraints.default) rng1 with
        e | ⟨star, rng2⟩
      · rw [hst] at h; exact Except.noConfusion h
      · rw [hst] at h
        simp at h

set_option maxRecDepth 100000 in
/-- C3 (witness): a concrete binary run over the probe oracle produces
`Double (Single (mass 5/2)) (Single (mass 3/2))` — in descending-mass
order. -/
theorem double_children_descending_mass_witness :
    (StarSubsystemType.single probeStarB).get_mass ≤
      (StarSubsystemType.single probeStarA).get_mass := by
  have h : StarSubsystemType.get_random_constrained probeOracle 2
      { binary_probability := some (1/2),
        star_constraints := some { minimum_stellar_mass := some 1, maximum_stellar_mass := some 3 } }
      ⟨[1/4, 3/4, 1/4, 1/2, 3/4, 3/4, 1/2]⟩ =
      .ok (.double (.single probeStarA) (.single probeStarB), ⟨[]⟩) := rfl
  exact double_children_descending_mass probeOracle 2
    { binary_probability := some (1/2),
      star_constraints := some { minimum_stellar_mass := some 1, maximum_stellar_mass := some 3 } }
    ⟨[1/4, 3/4, 1/4, 1/2, 3/4, 3/4, 1/2]⟩
    (.single probeStarA) (.single probeStarB) ⟨[]⟩ h

/-- C8: every star the star constraints generator produces has
`life_expectancy = mass / luminosity * 10`, and its current age was drawn
from `[minimum_age, 0.9 * life_expectancy)` with `minimum_age` equal to
`MINIMUM_HABITABLE_AGE` when habitability is enforced and
`0.1 * life_expectancy` otherwise; in either case the age is strictly
between 0 and the life expectancy.  (`hlum`: the external luminosity oracle
returns positive values, as the spec's data model requires.) -/
theorem star_generate_life_and_age_bounds (o : Oracle) (c : StarConstraints)
    (rng rng' : Rng) (s : StarEntity)
    (hlum : ∀ m l, o.luminosity m = some l → 0 < l)
    (h : StarConstraints.generate o c rng = .ok (s, rng')) :
    s.life_expectancy = s.mass / s.luminosity * 10 ∧
    (if c.make_habitable then MINIMUM_HABITABLE_AGE
     else 0.1 * s.life_expectancy) ≤ s.current_age ∧
    s.current_age < 0.9 * s.life_expectancy ∧
    0 < s.current_age ∧
    s.current_age < s.life_expectancy := by
  unfold StarConstraints.generate at h
  simp only [] at h
  set cd := (if c.make_habitable then get_random_habitable_spectral_class rng
    else get_random_spectral_class rng) with hcd
  set rr := (if c.make_habitable then spectral_class_to_habitable_mass_range cd.1
    else spectral_class_to_mass_range cd.1) with hrr
  have hrrpos : 0 < rr.1 := by
    obtain ⟨p1, p2⟩ := massRange_pos cd.1
    rw [hrr]
    split
    · exact p2
    · exact p1
  rcases hm : genRange rr.1 rr.2 cd.2 with e | ⟨mass, rng2⟩
  · rw [hm] at h; exact Except.noConfusion h
  rw [hm] at h
  simp only [] at h
  have hmass : 0 < mass := lt_of_lt_of_le hrrpos (genRange_ok hm).1
  rcases hf : StarEntity.from_mass o rng2 mass with e | ⟨star, rng3⟩
  · rw [hf] at h; exact Except.noConfusion h
  rw [hf] at h
  simp only [] at h
  obtain ⟨hsm, hsl, hsle⟩ := starFromMass_fields hf
  have hlpos : 0 < star.luminosity := hlum mass star.luminosity hsl
  have hlife : 0 < star.life_expectancy := by
    rw [hsle, hsm]
    have : 0 < mass / star.luminosity := div_pos hmass hlpos
    nlinarith
  rcases hage : genRange
      (if c.make_habitable then MINIMUM_HABITABLE_AGE else 0.1 * star.life_expectancy)
      (0.9 * star.life_expectancy) rng3 with e | ⟨current_age, rng4⟩
  · rw [hage] at h; exact Except.noConfusion h
  rw [hage] at h
  simp only [Except.ok.injEq, Prod.mk.injEq] at h
  obtain ⟨hs, -⟩ := h
  subst hs
  obtain ⟨hage1, hage2⟩ := genRange_ok hage
  have hminpos : 0 < (if c.make_habitable then MINIMUM_HABITABLE_AGE
      else 0.1 * star.life_expectancy) := by
    split
    · norm_num [MINIMUM_HABITABLE_AGE]
    · nlinarith
  refine ⟨hsle, hage1, hage2, by linarith, by nlinarith⟩

/-- C8 (witness): the default-constraints probe run (class M, mass `53/200`,
luminosity 10) satisfies all the age and life-expectancy bounds. -/
theorem star_generate_life_and_age_bounds_witness :
    probeStarM.life_expectancy = probeStarM.mass / probeStarM.luminosity * 10 ∧
    (if ({ minimum_mass := none, maximum_mass := none,
           make_habitable := false } : StarConstraints).make_habitable then
       MINIMUM_HABITABLE_AGE
     else 0.1 * probeStarM.life_expectancy) ≤ probeStarM.current_age ∧
    probeStarM.current_age < 0.9 * probeStarM.life_expectancy ∧
    0 < probeStarM.current_age ∧
    probeStarM.current_age < probeStarM.life_expectancy := by
  have hlum : ∀ m l, probeOracle.luminosity m = some l → 0 < l := by
    intro m l hml
    have h10 : (10 : ℚ) = l := Option.some.inj hml
    rw [← h10]
    norm_num
  have h : StarConstraints.generate probeOracle
      { minimum_mass := none, maximum_mass := none, make_habitable := false }
      ⟨[1/2, 1/2, 1/2, 1/2]⟩ = .ok (probeStarM, ⟨[]⟩) := rfl
  exact star_generate_life_and_age_bounds probeOracle
    { minimum_mass := none, maximum_mass := none, make_habitable := false }
    ⟨[1/2, 1/2, 1/2, 1/2]⟩ ⟨[]⟩ probeStarM hlum h
